import Mathlib

/-!
Verification development for the background-execution core of the repository:
the durable worker queue (src/app/workers/worker_service.py,
src/app/workers/models.py), the per-owner result queue
(src/app/services/worker_result_service.py) and the cron scheduler
(src/app/services/scheduler_service.py), with settings defaults taken from
src/app/core/config.py.

Modelling conventions:
- timestamps are epoch seconds (`Int`);
- Redis lists are Lean lists whose head is the Redis left end (`LPUSH`
  prepends, `RPOPLPUSH` pops the last element of the source and prepends it
  to the destination, `LREM key 0 v` removes every occurrence of `v`,
  `LRANGE key 0 (n-1)` is `take n`);
- the database session is modelled by explicit commit points: a commit
  replaces the store row carrying the task's id; mutations of an ORM object
  that are never committed (because an exception aborts the session) are
  not applied to the store, matching SQLAlchemy rollback semantics;
- Python exceptions are the `PyError` type, raised through `Except`;
  Redis effects performed before a raise survive it (Redis has no
  transaction here), uncommitted database changes do not;
- the observability metrics recorder (a side channel appended in `finally`
  blocks) carries no state read anywhere, and is not modelled;
- job handlers are external collaborators (spec section 2: the Handler
  Registry executes external code per job type), so they enter the model as
  an environment function from payloads to a result or a raised error.
-/

namespace Smartai

/-- A raised Python exception, as far as the worker code distinguishes them. -/
inductive PyError where
  | attributeError (name : String)
  | valueError (msg : String)
  deriving DecidableEq, Repr

/-- `WorkerJobType` from src/app/workers/models.py (lines 10-13): the three
declared job types. -/
inductive WorkerJobType where
  | web_search
  | web_fetch
  | pdf_create
  deriving DecidableEq, Repr

/-- `.value` of a `WorkerJobType` member. -/
def WorkerJobType.value : WorkerJobType → String
  | .web_search => "web_search"
  | .web_fetch => "web_fetch"
  | .pdf_create => "pdf_create"

/-- The `WorkerJobType(string)` enum constructor: `some` member on a declared
value, otherwise `none` (Python raises `ValueError`, which the only caller,
`_process_task`, catches and turns into a missing handler). -/
def workerJobTypeOf : String → Option WorkerJobType
  | "web_search" => some .web_search
  | "web_fetch" => some .web_fetch
  | "pdf_create" => some .pdf_create
  | _ => none

/-- The member table of `WorkerJobStatus` exactly as declared in
src/app/workers/models.py lines 16-20: `QUEUED`, `RUNNING`, `SUCCESS`,
`FAILED`.  Attribute access `WorkerJobStatus.NAME.value` yields the member's
value, or `none` for a name that is not declared — in particular
`RETRY_SCHEDULED`, which src/app/workers/worker_service.py reads at lines
225, 325 and 395, is **not** a declared member. -/
def workerJobStatusMember : String → Option String
  | "QUEUED" => some "queued"
  | "RUNNING" => some "running"
  | "SUCCESS" => some "success"
  | "FAILED" => some "failed"
  | _ => none

/-- Python attribute access `WorkerJobStatus.name.value`: the member's value,
or a raised `AttributeError` when the enum declares no such member. -/
def pyStatusValue (name : String) : Except PyError String :=
  match workerJobStatusMember name with
  | some v => .ok v
  | none => .error (.attributeError name)

/-- `WorkerJobStatus.QUEUED.value`. -/
def STATUS_QUEUED : String := "queued"

/-- `WorkerJobStatus.RUNNING.value`. -/
def STATUS_RUNNING : String := "running"

/-- `WorkerJobStatus.SUCCESS.value`. -/
def STATUS_SUCCESS : String := "success"

/-- `WorkerJobStatus.FAILED.value`. -/
def STATUS_FAILED : String := "failed"

/-- A task payload: an opaque structured map, modelled as a string-keyed
association list of string values (only the `__user_id` key is ever read by
the code under verification). -/
abbrev Payload := List (String × String)

/-- `payload.get(key)`. -/
def payloadGet (p : Payload) (k : String) : Option String :=
  (p.find? (fun kv => kv.1 == k)).map (fun kv => kv.2)

/-- One row of the `worker_tasks` table (src/app/models/worker_task.py). -/
structure WorkerTask where
  id : String
  user_id : Option String := none
  job_type : String
  payload : Payload := []
  status : String
  result : Option Payload := none
  error : Option String := none
  attempt_count : Int := 0
  max_retries : Int := 3
  dedupe_key : Option String := none
  started_at : Option Int := none
  next_retry_at : Option Int := none
  completed_at : Option Int := none
  created_at : Int := 0
  deriving DecidableEq, Repr

/-- The worker-relevant settings of src/app/core/config.py with their
declared defaults (lines 45-57). -/
structure Settings where
  WORKER_RESULT_QUEUE_MAX_ITEMS : Int := 200
  WORKER_RESULT_TTL_SECONDS : Int := 86400
  WORKER_MAX_RETRIES : Int := 3
  WORKER_DEDUPE_WINDOW_SECONDS : Int := 300
  WORKER_RETRY_BASE_DELAY_SECONDS : Int := 10
  WORKER_RETRY_MAX_DELAY_SECONDS : Int := 300
  WORKER_RUNNING_LEASE_SECONDS : Int := 180
  WORKER_PROCESSING_RECOVERY_BATCH : Int := 200
  deriving DecidableEq, Repr

/-- The settings object with every default intact. -/
def settingsDefault : Settings := {}

/-- One alert recorded by `alerting_service.emit`
(src/app/services/alerting_service.py). -/
structure Alert where
  component : String
  severity : String
  message : String
  deriving DecidableEq, Repr

/-- One delivery performed by `_notify_user` through the notification sink
(`worker_result_service.push` plus the websocket send), summarised by the
envelope fields the claims mention. -/
structure Notification where
  user_id : String
  job_type : String
  is_success : Bool
  error : Option String
  deriving DecidableEq, Repr

/-- The combined state the dispatcher operates on: the durable Task Store
and the three Queue Transport primitives, plus the emitted alerts and
notification-sink deliveries as append-only logs. -/
structure WorkerState where
  store : List WorkerTask := []
  ready : List String := []
  processing : List String := []
  retry_zset : List (String × Int) := []
  alerts : List Alert := []
  notifications : List Notification := []
  deriving DecidableEq, Repr

/-- Database read: the row with the given id (ids are unique in the table). -/
def getRow (st : WorkerState) (id : String) : Option WorkerTask :=
  st.store.find? (fun t => t.id == id)

/-- Database commit of a mutated ORM object: replace the row carrying the
task's id. -/
def commitRow (st : WorkerState) (t : WorkerTask) : WorkerState :=
  { st with store := st.store.map (fun r => if r.id == t.id then t else r) }

/-- `LPUSH` onto the Ready List (`WORKER_QUEUE_KEY`). -/
def lpushReady (st : WorkerState) (v : String) : WorkerState :=
  { st with ready := v :: st.ready }

/-- `LREM key 0 v` on the Processing List (`WORKER_PROCESSING_QUEUE_KEY`):
removes every occurrence. -/
def lremProcessing (st : WorkerState) (v : String) : WorkerState :=
  { st with processing := st.processing.filter (fun x => x != v) }

/-- `ZADD` on the Retry Set (`WORKER_RETRY_ZSET_KEY`): upserts the member's
score. -/
def zaddRetry (st : WorkerState) (m : String) (score : Int) : WorkerState :=
  { st with retry_zset := (st.retry_zset.filter (fun e => e.1 != m)) ++ [(m, score)] }

/-- `alerting_service.emit`: append one alert. -/
def emitAlert (st : WorkerState) (component severity message : String) : WorkerState :=
  { st with alerts := st.alerts ++ [⟨component, severity, message⟩] }

/-- Python truthiness chaining for optional strings: the first non-empty
value, if any. -/
def truthyStr : Option String → Option String
  | some s => if s == "" then none else some s
  | none => none

/-- Python `str.strip()`: drop leading and trailing whitespace (structural
over the character list). -/
def pyStrip (s : String) : String :=
  ⟨((s.data.dropWhile Char.isWhitespace).reverse.dropWhile Char.isWhitespace).reverse⟩

/-- `_notify_user` (worker_service.py lines 429-443): resolve the owner from
the payload's `__user_id` or the row's `user_id`; deliver nothing when both
are missing, otherwise push one envelope whose success flag is
`status == SUCCESS`. -/
def notify_user (st : WorkerState) (job : WorkerTask) : WorkerState :=
  let user_id := pyStrip (((truthyStr (payloadGet job.payload "__user_id")).orElse
      (fun _ => truthyStr job.user_id)).getD "")
  if user_id == "" then st
  else
    { st with notifications := st.notifications ++
        [⟨user_id, job.job_type, job.status == STATUS_SUCCESS, job.error⟩] }

/-- `WorkerService._retry_delay_seconds` (worker_service.py lines 358-363):
exponential backoff from the configured base, capped by the configured
maximum (the base floored at 1, the cap floored at the base). -/
def retry_delay_seconds (s : Settings) (attempt_count : Int) : Int :=
  let base := max 1 s.WORKER_RETRY_BASE_DELAY_SECONDS
  let max_delay := max base s.WORKER_RETRY_MAX_DELAY_SECONDS
  let value := base * 2 ^ (max 0 (attempt_count - 1)).toNat
  min max_delay value

/-- Canonical-form UUID check modelling `uuid.UUID(str)` acceptance
(Python standard library) for the canonical 8-4-4-4-12 hex form that
`str(uuid)` produces and the queue stores; other spellings Python would also
accept never occur as task ids. -/
def isValidUUID (s : String) : Bool :=
  let cs := s.data
  cs.length == 36 && (cs.enum.all (fun ic =>
    if ic.1 == 8 || ic.1 == 13 || ic.1 == 18 || ic.1 == 23 then ic.2 == '-'
    else ic.2.isDigit || ('a' ≤ ic.2 && ic.2 ≤ 'f') || ('A' ≤ ic.2 && ic.2 ≤ 'F')))

/-- The injected collaborators of the dispatcher: the Handler Registry
(spec section 2, an external executor per job type, which may raise) plus
the dedupe-key hash primitive (`hashlib.sha256` over the canonical payload
JSON) and the database-generated id of a freshly inserted row. -/
structure WorkerEnv where
  handlers : WorkerJobType → Option (Payload → Except String Payload)
  build_dedupe_key : WorkerJobType → Payload → String := fun _ _ => ""
  fresh_id : String := ""

/-- `WorkerService._fail_task` (worker_service.py lines 218-247): increment
`attempt_count`, record the error; within the retry budget read
`WorkerJobStatus.RETRY_SCHEDULED.value` (line 225 — an `AttributeError`,
since the member is not declared, aborting before the commit), else commit
`FAILED` with `completed_at`, emit the permanent-failure alert and notify
the owner.  Returns the state and the committed row. -/
def fail_task (s : Settings) (now : Int) (st : WorkerState) (task : WorkerTask)
    (error : String) : Except PyError (WorkerState × WorkerTask) := do
  let task := { task with attempt_count := task.attempt_count + 1, error := some error }
  if task.attempt_count ≤ task.max_retries then
    let s_retry ← pyStatusValue "RETRY_SCHEDULED"
    let delay := retry_delay_seconds s task.attempt_count
    let run_at := now + delay
    let task := { task with status := s_retry, next_retry_at := some run_at }
    let st := commitRow st task
    let st := zaddRetry st task.id run_at
    pure (st, task)
  else
    let task := { task with status := STATUS_FAILED, completed_at := some now }
    let st := commitRow st task
    let st := emitAlert st "worker" "warning" "worker task failed permanently"
    let st := notify_user st task
    pure (st, task)

/-- `WorkerService._process_task` (worker_service.py lines 153-216): load the
row (`UUID(task_id)` raising `ValueError` on a malformed id), commit it as
`RUNNING`, resolve the handler (an undeclared job type yields no handler),
run it, and persist the outcome — success directly, any failure through
`_fail_task`.  The `finally` block removes the id from the Processing List
whatever happened; a `PyError` escaping `_fail_task` leaves the state as it
was before that call (no Redis effect precedes the raise, and the session
rolls the uncommitted mutations back). -/
def process_task_body (env : WorkerEnv) (s : Settings) (now : Int) (st : WorkerState)
    (task_id : String) : WorkerState × Except PyError (Option WorkerTask) :=
  if isValidUUID task_id then
      match getRow st task_id with
      | none => (st, .ok none)
      | some task0 =>
        let task := { task0 with
                        status := STATUS_RUNNING, started_at := some now,
                        next_retry_at := none }
        let st := commitRow st task
        match (workerJobTypeOf task.job_type).bind env.handlers with
        | none =>
          match fail_task s now st task ("No handler for job_type=" ++ task.job_type) with
          | .error e => (st, .error e)
          | .ok (st, task) => (st, .ok (some task))
        | some handler =>
          match handler task.payload with
          | .ok run_result =>
            let task := { task with
                            status := STATUS_SUCCESS, result := some run_result,
                            error := none, completed_at := some now }
            let st := commitRow st task
            let st := notify_user st task
            (st, .ok (some task))
          | .error exc =>
            match fail_task s now st task exc with
            | .error e => (st, .error e)
            | .ok (st, task) => (st, .ok (some task))
  else (st, .error (.valueError "badly formed hexadecimal UUID string"))

/-- The `finally` wrapper of `_process_task` (line 216): whatever the body
did — returned or raised — `LREM` the id from the Processing List. -/
def process_task (env : WorkerEnv) (s : Settings) (now : Int) (st : WorkerState)
    (task_id : String) : WorkerState × Except PyError (Option WorkerTask) :=
  let body := process_task_body env s now st task_id
  (lremProcessing body.1 task_id, body.2)

/-- Latest-created row of a query result (`ORDER BY created_at DESC LIMIT 1`). -/
def pickLatest (rows : List WorkerTask) : Option WorkerTask :=
  rows.foldl (fun acc t =>
    match acc with
    | none => some t
    | some b => if b.created_at < t.created_at then some t else some b) none

/-- `WorkerService._find_deduplicated_task` (worker_service.py lines
384-403): latest non-terminal row with the given dedupe key created within
the dedup window.  Building the status filter reads
`WorkerJobStatus.RETRY_SCHEDULED.value` (line 395), which raises
`AttributeError` before the query can run. -/
def find_deduplicated_task (s : Settings) (now : Int) (st : WorkerState)
    (dedupe_key : String) : Except PyError (Option WorkerTask) := do
  let window_start := now - s.WORKER_DEDUPE_WINDOW_SECONDS
  let s_queued ← pyStatusValue "QUEUED"
  let s_running ← pyStatusValue "RUNNING"
  let s_retry ← pyStatusValue "RETRY_SCHEDULED"
  let rows := st.store.filter (fun t =>
    (t.dedupe_key == some dedupe_key)
      && ((t.status == s_queued) || (t.status == s_running) || (t.status == s_retry))
      && decide (window_start ≤ t.created_at))
  pure (pickLatest rows)

/-- `WorkerService.enqueue` (worker_service.py lines 48-113): clamp the retry
budget, resolve the owner and the dedupe key, return a live duplicate if the
window holds one, otherwise insert a `QUEUED` row and `LPUSH` its id onto
the Ready List.  The result triple is (task, enqueued, deduplicated). -/
def enqueue (env : WorkerEnv) (s : Settings) (now : Int) (st : WorkerState)
    (job_type : WorkerJobType) (payload : Payload) (max_retries : Option Int)
    (dedupe_key : Option String) :
    Except PyError (WorkerState × WorkerTask × Bool × Bool) := do
  let retries := max 0 (max_retries.getD s.WORKER_MAX_RETRIES)
  let user_id :=
    let raw := pyStrip ((payloadGet payload "__user_id").getD "")
    if raw == "" then none else some raw
  let dedupe := ((truthyStr dedupe_key).getD (env.build_dedupe_key job_type payload))
  let existing ← find_deduplicated_task s now st dedupe
  match existing with
  | some t => pure (st, t, false, true)
  | none =>
    let task : WorkerTask := { id := env.fresh_id, user_id := user_id,
                               job_type := job_type.value, payload := payload,
                               status := STATUS_QUEUED, attempt_count := 0,
                               max_retries := retries, dedupe_key := some dedupe,
                               created_at := now }
    let st := { st with store := st.store ++ [task] }
    let st := lpushReady st task.id
    pure (st, task, true, false)

/-- `WorkerService._recover_processing_item` (worker_service.py lines
308-339): a missing row is a stale marker (`LREM` only); for a present row
the terminal-status set is built first, reading
`WorkerJobStatus.RETRY_SCHEDULED.value` (line 325) and raising before any
branch below it can run; the remaining (source) branches re-queue a
`QUEUED` row and run a stale `RUNNING` row through `_fail_task`. -/
def recover_processing_item (s : Settings) (now : Int) (stale_before : Int)
    (st : WorkerState) (task_id : String) (task? : Option WorkerTask) :
    WorkerState × Option PyError :=
  match task? with
  | none => (lremProcessing st task_id, none)
  | some task =>
    match pyStatusValue "SUCCESS" with
    | .error e => (st, some e)
    | .ok s_success =>
      match pyStatusValue "FAILED" with
      | .error e => (st, some e)
      | .ok s_failed =>
        match pyStatusValue "RETRY_SCHEDULED" with
        | .error e => (st, some e)
        | .ok s_retry =>
          let status := task.status
          if (status == s_success) || (status == s_failed) || (status == s_retry) then
            (lremProcessing st task_id, none)
          else if status == STATUS_QUEUED then
            (lremProcessing (lpushReady st task_id) task_id, none)
          else
            let is_stale := (status == STATUS_RUNNING)
              && (match task.started_at with
                  | some t0 => decide (t0 < stale_before)
                  | none => false)
            if is_stale then
              match fail_task s now st task
                  "Worker lease timeout: recovered stale RUNNING task" with
              | .error e => (st, some e)
              | .ok (st, _) => (lremProcessing st task_id, none)
            else (st, none)

/-- The per-item loop of `_recover_processing_queue` (lines 298-306): items
are processed in order; a raised exception aborts the pass, keeping the
Redis effects already performed. -/
def recover_items (s : Settings) (now : Int) (stale_before : Int)
    (task_map : String → Option WorkerTask) :
    List String → WorkerState → WorkerState × Option PyError
  | [], st => (st, none)
  | tid :: rest, st =>
    match recover_processing_item s now stale_before st tid (task_map tid) with
    | (st', none) => recover_items s now stale_before task_map rest st'
    | (st', some e) => (st', some e)

/-- The per-id step of the UUID-validation pass (worker_service.py lines
280-284): an id that fails `UUID(task_id)` is `LREM`ed, a valid one is kept
for the store lookup. -/
def stepInvalid (acc : WorkerState) (tid : String) : WorkerState :=
  if isValidUUID tid then acc else lremProcessing acc tid

/-- A bare `LREM` step (used to describe the missing-row cleanups of the
item loop). -/
def stepRemove (acc : WorkerState) (tid : String) : WorkerState :=
  lremProcessing acc tid

/-- The scanned window of the Processing List (worker_service.py lines
273-275): the first `max(10, WORKER_PROCESSING_RECOVERY_BATCH)` entries,
blank entries skipped. -/
def windowIds (s : Settings) (st : WorkerState) : List String :=
  (st.processing.take (max 10 s.WORKER_PROCESSING_RECOVERY_BATCH).toNat).filter
    (fun t => pyStrip t != "")

/-- The row snapshot the item loop consults (worker_service.py lines
289-292): the store row of each valid scanned id, none for the rest. -/
def taskMapOf (valid_ids : List String) (st : WorkerState) :
    String → Option WorkerTask :=
  fun tid => if valid_ids.contains tid then getRow st tid else none

/-- `WorkerService._recover_processing_queue` (worker_service.py lines
271-306): scan a bounded window of the Processing List, drop ids that fail
UUID parsing, look the remaining ids up in the store (the row snapshot the
loop consults), and run each id through `_recover_processing_item`. -/
def recover_processing_queue (s : Settings) (now : Int) (st : WorkerState) :
    WorkerState × Option PyError :=
  let task_ids := windowIds s st
  if task_ids.isEmpty then (st, none)
  else
    let st1 := task_ids.foldl stepInvalid st
    let valid_ids := task_ids.filter (fun tid => isValidUUID tid)
    if valid_ids.isEmpty then (st1, none)
    else
      let stale_before := now - max 10 s.WORKER_RUNNING_LEASE_SECONDS
      recover_items s now stale_before (taskMapOf valid_ids st1) task_ids st1

/-- One per-owner durable result queue: the Redis list at its key plus the
TTL last set by `EXPIRE`. -/
structure ResultQueue where
  items : List String := []
  ttl : Option Int := none
  deriving DecidableEq, Repr

/-- The Redis keyspace holding the per-owner result queues. -/
abbrev ResultStore := List (String × ResultQueue)

/-- Read a key (a missing key is an empty list with no TTL). -/
def getQueue (store : ResultStore) (key : String) : ResultQueue :=
  ((store.find? (fun kv => kv.1 == key)).map (fun kv => kv.2)).getD {}

/-- Write a key (observably equal to an in-place update). -/
def setQueue (store : ResultStore) (key : String) (q : ResultQueue) : ResultStore :=
  (key, q) :: store.filter (fun kv => kv.1 != key)

/-- `WorkerResultService._key` (worker_result_service.py lines 22-24) with
the default `WORKER_RESULT_QUEUE_PREFIX` of config.py line 48. -/
def resultKey (user_id : String) : String := "assistant:worker:result:" ++ user_id

/-- Keep the last `n` elements of a list: `LTRIM key (-n) (-1)` for `n ≥ 1`
(a shorter list is kept whole). -/
def takeLast (n : Nat) (l : List String) : List String := l.drop (l.length - n)

/-- `WorkerResultService.push` (worker_result_service.py lines 26-36), broker
path: `RPUSH` the serialized payload, `LTRIM` to the last
`max(10, WORKER_RESULT_QUEUE_MAX_ITEMS)` entries, `EXPIRE` with
`max(60, WORKER_RESULT_TTL_SECONDS)`.  (The `except` fallback appends to a
process-local in-memory deque instead and is reached only on broker
failures, which the model does not raise.) -/
def worker_result_push (s : Settings) (store : ResultStore)
    (user_id payload : String) : ResultStore :=
  let key := resultKey user_id
  let max_items := (max 10 s.WORKER_RESULT_QUEUE_MAX_ITEMS).toNat
  let q := getQueue store key
  let items := takeLast max_items (q.items ++ [payload])
  setQueue store key { items := items, ttl := some (max 60 s.WORKER_RESULT_TTL_SECONDS) }

/-- Python `str.startswith(pre)` (structural over character lists). -/
def strStartsWith (sv pre : String) : Bool := pre.data.isPrefixOf sv.data

/-- Python slicing `sv[n:]` (structural over character lists). -/
def strDrop (sv : String) (n : Nat) : String := ⟨sv.data.drop n⟩

/-- Modelled from the spec: the shape of the ISO-8601 timestamps of the
one-shot wire format, `YYYY-MM-DD` or `YYYY-MM-DDTHH:MM:SS` — the canonical
core accepted by Python's `datetime.fromisoformat`, which lives in the
standard library, not in this repository's sources. -/
def isIso8601 (sv : String) : Bool :=
  match sv.data with
  | [y1, y2, y3, y4, h1, m1, m2, h2, d1, d2] =>
    y1.isDigit && y2.isDigit && y3.isDigit && y4.isDigit && h1 == '-'
      && m1.isDigit && m2.isDigit && h2 == '-' && d1.isDigit && d2.isDigit
  | [y1, y2, y3, y4, h1, m1, m2, h2, d1, d2, t, hh1, hh2, c1, mm1, mm2, c2, s1, s2] =>
    y1.isDigit && y2.isDigit && y3.isDigit && y4.isDigit && h1 == '-'
      && m1.isDigit && m2.isDigit && h2 == '-' && d1.isDigit && d2.isDigit
      && t == 'T' && hh1.isDigit && hh2.isDigit && c1 == ':'
      && mm1.isDigit && mm2.isDigit && c2 == ':' && s1.isDigit && s2.isDigit
  | _ => false

/-- Modelled from the spec: `datetime.fromisoformat` (Python standard
library): an ISO-8601 timestamp parses to itself as the one-shot run date,
anything else raises `ValueError`. -/
def fromisoformat (sv : String) : Except PyError String :=
  if isIso8601 sv then .ok sv
  else .error (.valueError ("Invalid isoformat string: " ++ sv))

/-- Whitespace field splitting, dropping empty fields (accumulator holds
the current field reversed). -/
def splitFieldsAux : List Char → List Char → List (List Char)
  | [], acc => if acc.isEmpty then [] else [acc.reverse]
  | c :: rest, acc =>
    if c.isWhitespace then
      if acc.isEmpty then splitFieldsAux rest []
      else acc.reverse :: splitFieldsAux rest []
    else splitFieldsAux rest (c :: acc)

/-- The whitespace-separated fields of a cron expression. -/
def splitFields (sv : String) : List String :=
  (splitFieldsAux sv.data []).map (fun cs => ⟨cs⟩)

/-- Modelled from the spec: the recurring cron parser (apscheduler's
`CronTrigger.from_crontab`, an external dependency, not in this
repository's sources).  Per the spec's wire format — "standard 5/6-field
cron syntax" — a whitespace-separated expression of five or six fields
parses to a cron trigger; anything else raises `ValueError`. -/
def from_crontab (expr : String) : Except PyError (List String) :=
  let fields := splitFields expr
  if fields.length == 5 || fields.length == 6 then .ok fields
  else .error (.valueError ("Wrong number of fields; got " ++ expr))

/-- A scheduler trigger: a one-shot `DateTrigger(run_date)` or a recurring
`CronTrigger` identified by its parsed fields. -/
inductive Trigger where
  | date (run_at : String)
  | cron (fields : List String)
  deriving DecidableEq, Repr

/-- One job of the in-memory trigger registry (id, trigger, and the kwargs
`execute_action` is registered with). -/
structure SchedJob where
  id : String
  trigger : Trigger
  user_id : String
  action_type : String
  payload : Payload
  deriving DecidableEq, Repr

/-- Scheduler state: the trigger registry plus the emitted alerts. -/
structure SchedState where
  jobs : List SchedJob := []
  alerts : List Alert := []
  deriving DecidableEq, Repr

/-- `SchedulerService.add_or_replace_job` (scheduler_service.py lines
183-218): an expression starting with `@once:` is parsed by
`datetime.fromisoformat` of the rest (`replace("@once:", "", 1)` on a
string with that prefix strips exactly the prefix) into a date trigger;
anything else goes through `CronTrigger.from_crontab`; then
`add_job(..., replace_existing=True)` replaces any job registered under the
same id.  A parse failure emits the `scheduler add job failed` alert and is
re-raised to the caller. -/
def add_or_replace_job (st : SchedState)
    (job_id cron_expression user_id action_type : String) (payload : Payload) :
    SchedState × Except PyError Unit :=
  let parsed : Except PyError Trigger :=
    if strStartsWith cron_expression "@once:" then
      (fromisoformat (strDrop cron_expression 6)).map Trigger.date
    else
      (from_crontab cron_expression).map Trigger.cron
  match parsed with
  | .error e =>
    ({ st with alerts := st.alerts ++
        [⟨"scheduler", "warning", "scheduler add job failed"⟩] }, .error e)
  | .ok trigger =>
    ({ st with jobs := (st.jobs.filter (fun j => j.id != job_id))
        ++ [⟨job_id, trigger, user_id, action_type, payload⟩] }, .ok ())

/-- The trigger registered under an id, if any. -/
def jobLookup (st : SchedState) (id : String) : Option Trigger :=
  (st.jobs.find? (fun j => j.id == id)).map (fun j => j.trigger)

/-- How many registry entries carry an id. -/
def countJobs (st : SchedState) (id : String) : Nat :=
  (st.jobs.filter (fun j => j.id == id)).length

/-! Concrete fixtures used by the claim theorems and witnesses. -/

/-- A canonical task id. -/
def uuid1 : String := "00000000-0000-4000-8000-000000000001"

/-- An environment whose registry resolves no handler (fresh service with
the built-in handlers removed, or a job type no handler was registered
for). -/
def envNone : WorkerEnv := { handlers := fun _ => none }

/-- C1 fixture: a `RUNNING` task on its first attempt with two retries of
budget, whose handler has just failed. -/
def taskC1 : WorkerTask := { id := uuid1, user_id := some "u-1",
                             job_type := "web_search", status := "running",
                             attempt_count := 0, max_retries := 2 }

/-- C1 fixture state. -/
def stC1 : WorkerState := { store := [taskC1] }

/-- C3 fixture: a `QUEUED` row whose id sits in the Processing List (crash
between the atomic move and the `RUNNING` commit). -/
def taskC3 : WorkerTask := { id := uuid1, job_type := "web_search",
                             status := "queued", attempt_count := 0,
                             max_retries := 3 }

/-- C3 fixture state. -/
def stC3 : WorkerState := { store := [taskC3], processing := [uuid1] }

/-- C4 fixture: a queued task of an unregistered job type with one retry of
budget. -/
def taskC4 : WorkerTask := { id := uuid1, user_id := some "u-4",
                             job_type := "custom_job", status := "queued",
                             attempt_count := 0, max_retries := 1 }

/-- C4 fixture state: the task is leased (its id is in the Processing
List). -/
def stC4 : WorkerState := { store := [taskC4], processing := [uuid1] }

/-- C4 fixture: the same unregistered-type task with `max_retries = 0`. -/
def taskC4z : WorkerTask := { taskC4 with max_retries := 0 }

/-- C4 fixture state for the zero-budget run. -/
def stC4z : WorkerState := { store := [taskC4z], processing := [uuid1] }

/-- C7 witness fixture: a lone stale Processing-List marker with no store
row. -/
def stW7 : WorkerState := { processing := [uuid1] }

/-- C7 counterexample settings: a recovery batch setting of 1, floored by
the code to an effective window of 10. -/
def sCex : Settings := { WORKER_PROCESSING_RECOVERY_BATCH := 1 }

/-- C7 counterexample fixture: eleven distinct canonical ids — one more
than the effective batch window — none with a store row. -/
def cexIds : List String :=
  ["00000000-0000-4000-8000-000000000000",
   "00000000-0000-4000-8000-000000000001",
   "00000000-0000-4000-8000-000000000002",
   "00000000-0000-4000-8000-000000000003",
   "00000000-0000-4000-8000-000000000004",
   "00000000-0000-4000-8000-000000000005",
   "00000000-0000-4000-8000-000000000006",
   "00000000-0000-4000-8000-000000000007",
   "00000000-0000-4000-8000-000000000008",
   "00000000-0000-4000-8000-000000000009",
   "00000000-0000-4000-8000-00000000000a"]

/-- C7 counterexample state. -/
def stCex : WorkerState := { processing := cexIds }

/-- C5 fixture: the always-failing task of spec Scenario B
(`max_retries = 2`) at its first attempt. -/
def taskC5a : WorkerTask := { id := uuid1, user_id := some "u-5",
                              job_type := "web_search", status := "running",
                              attempt_count := 0, max_retries := 2 }

/-- C5 fixture: the same task at the final attempt
(`attempt_count = max_retries = 2` before the failure). -/
def taskC5b : WorkerTask := { taskC5a with attempt_count := 2 }

/-- C5 fixture state holding the final-attempt row. -/
def stC5 : WorkerState := { store := [taskC5b] }

/-- C5 expected row after the final failure: `attempt_count = 3 =
max_retries + 1`, status `failed`, `completed_at` set. -/
def taskC5exp : WorkerTask := { taskC5b with
                                  attempt_count := 3, error := some "boom",
                                  status := STATUS_FAILED,
                                  completed_at := some 1000 }

/-- C5 expected state after the final failure: the committed `failed` row,
exactly one (permanent-failure) alert, one failure notification. -/
def stC5exp : WorkerState :=
  { store := [taskC5exp],
    alerts := [⟨"worker", "warning", "worker task failed permanently"⟩],
    notifications := [⟨"u-5", "web_search", false, some "boom"⟩] }

end Smartai

namespace Smartai

/-- `commitRow` only touches the store. -/
theorem commitRow_retry_zset (st : WorkerState) (t : WorkerTask) :
    (commitRow st t).retry_zset = st.retry_zset := rfl

/-- `emitAlert` only touches the alert log. -/
theorem emitAlert_retry_zset (st : WorkerState) (c sv m : String) :
    (emitAlert st c sv m).retry_zset = st.retry_zset := rfl

/-- `lremProcessing` only touches the Processing List. -/
theorem lremProcessing_retry_zset (st : WorkerState) (v : String) :
    (lremProcessing st v).retry_zset = st.retry_zset := rfl

/-- `notify_user` only touches the notification log. -/
theorem notify_user_retry_zset (st : WorkerState) (j : WorkerTask) :
    (notify_user st j).retry_zset = st.retry_zset := by
  simp only [notify_user]
  split <;> rfl

/-- C6: the retry delay of attempt `n ≥ 1` under a sane configuration
(base delay at least 1, cap at least the base) equals
`min(max_delay, base_delay * 2^(n-1))`; it is non-decreasing in `n`, and it
never exceeds the configured maximum delay. -/
theorem retry_delay_formula_monotone_capped (s : Settings) (n : Int)
    (hn : 1 ≤ n)
    (hb : 1 ≤ s.WORKER_RETRY_BASE_DELAY_SECONDS)
    (hm : s.WORKER_RETRY_BASE_DELAY_SECONDS ≤ s.WORKER_RETRY_MAX_DELAY_SECONDS) :
    retry_delay_seconds s n
        = min s.WORKER_RETRY_MAX_DELAY_SECONDS
            (s.WORKER_RETRY_BASE_DELAY_SECONDS * 2 ^ (n - 1).toNat)
      ∧ retry_delay_seconds s n ≤ retry_delay_seconds s (n + 1)
      ∧ retry_delay_seconds s n ≤ s.WORKER_RETRY_MAX_DELAY_SECONDS := by
  have hbase : max 1 s.WORKER_RETRY_BASE_DELAY_SECONDS
      = s.WORKER_RETRY_BASE_DELAY_SECONDS := max_eq_right hb
  have hcap : max s.WORKER_RETRY_BASE_DELAY_SECONDS s.WORKER_RETRY_MAX_DELAY_SECONDS
      = s.WORKER_RETRY_MAX_DELAY_SECONDS := max_eq_right hm
  have hclip : max 0 (n - 1) = n - 1 := max_eq_right (by omega)
  refine ⟨?_, ?_, ?_⟩
  · simp only [retry_delay_seconds, hbase, hcap, hclip]
  · have hexp : (max 0 (n - 1)).toNat ≤ (max 0 (n + 1 - 1)).toNat := by
      have : max 0 (n - 1) ≤ max 0 (n + 1 - 1) := by
        rcases le_total 0 (n - 1) with h | h <;> omega
      omega
    have hpow : (2 : Int) ^ (max 0 (n - 1)).toNat ≤ 2 ^ (max 0 (n + 1 - 1)).toNat :=
      pow_le_pow_right₀ (by norm_num) hexp
    have hbpos : (0 : Int) ≤ max 1 s.WORKER_RETRY_BASE_DELAY_SECONDS := by
      have := le_max_left (1 : Int) s.WORKER_RETRY_BASE_DELAY_SECONDS
      omega
    simp only [retry_delay_seconds]
    exact min_le_min le_rfl (mul_le_mul_of_nonneg_left hpow hbpos)
  · simp only [retry_delay_seconds, hbase, hcap]
    exact min_le_left _ _

/-- Witness for C6 at the configured defaults (base 10, cap 300) and
attempt 3: delay `= min(300, 10 * 2^2) = 40`. -/
theorem retry_delay_formula_monotone_capped_witness :
    retry_delay_seconds settingsDefault 3
        = min settingsDefault.WORKER_RETRY_MAX_DELAY_SECONDS
            (settingsDefault.WORKER_RETRY_BASE_DELAY_SECONDS * 2 ^ ((3 : Int) - 1).toNat)
      ∧ retry_delay_seconds settingsDefault 3 ≤ retry_delay_seconds settingsDefault (3 + 1)
      ∧ retry_delay_seconds settingsDefault 3
          ≤ settingsDefault.WORKER_RETRY_MAX_DELAY_SECONDS :=
  retry_delay_formula_monotone_capped settingsDefault 3 (by decide) (by decide) (by decide)

/-- C1 (code bug): a handler failure whose incremented `attempt_count`
(here 1) is within `max_retries` (here 2) does not set `RetryScheduled`,
`next_retry_at` or the Retry Set — `_fail_task` raises
`AttributeError("RETRY_SCHEDULED")` at worker_service.py line 225 because
`WorkerJobStatus` (models.py lines 16-20) declares no such member, aborting
before any commit.  The spec and the repository's own smoke test
(src/scripts/smoke_worker_queue.py line 256) expect status
`retry_scheduled`. -/
theorem failTask_retry_branch_raises :
    fail_task settingsDefault 1000 stC1 taskC1 "boom"
      = .error (.attributeError "RETRY_SCHEDULED") := rfl

/-- C2 (code bug): every `enqueue` call — deduplicated or not — raises
`AttributeError("RETRY_SCHEDULED")` from `_find_deduplicated_task`'s status
filter (worker_service.py line 395), so it never returns a task, persists
no row and pushes nothing onto the Ready List. -/
theorem enqueue_always_raises (env : WorkerEnv) (s : Settings) (now : Int)
    (st : WorkerState) (job_type : WorkerJobType) (payload : Payload)
    (max_retries : Option Int) (dedupe_key : Option String) :
    enqueue env s now st job_type payload max_retries dedupe_key
      = .error (.attributeError "RETRY_SCHEDULED") := rfl

/-- C3 (code bug): recovering a Processing-List id whose store row exists —
here a `QUEUED` row that the claim says must be pushed back onto the Ready
List — changes nothing and raises `AttributeError("RETRY_SCHEDULED")`: the
terminal-status set built at worker_service.py lines 322-326 reads the
missing enum member before any branch can run. -/
theorem recover_existing_row_raises :
    recover_processing_queue settingsDefault 1000 stC3
      = (stC3, some (.attributeError "RETRY_SCHEDULED")) := rfl

/-- What `_recover_processing_item` does in the code as written: a missing
row is a `LREM`, any present row raises (the terminal-status set reads the
missing `RETRY_SCHEDULED` member) before any branch can act. -/
theorem recover_item_collapse (s : Settings) (now sb : Int) (st : WorkerState)
    (tid : String) (task? : Option WorkerTask) :
    recover_processing_item s now sb st tid task?
      = match task? with
        | none => (lremProcessing st tid, none)
        | some _ => (st, some (.attributeError "RETRY_SCHEDULED")) := by
  cases task? <;> rfl

/-- The UUID-validation pass removes exactly the scanned invalid ids from
the Processing List and touches nothing else. -/
theorem lrem_then_filter (st : WorkerState) (tid : String) (p : String → Bool) :
    ({ lremProcessing st tid with
         processing := (lremProcessing st tid).processing.filter p } : WorkerState)
      = { st with processing := st.processing.filter (fun x => p x && (x != tid)) } := by
  simp [lremProcessing, List.filter_filter]

theorem foldInvalid_characterize (ids : List String) (st : WorkerState) :
    ids.foldl stepInvalid st
      = { st with
            processing := st.processing.filter
              (fun x => !(decide (x ∈ ids) && !(isValidUUID x))) } := by
  induction ids generalizing st with
  | nil => simp
  | cons tid rest ih =>
    show rest.foldl stepInvalid (stepInvalid st tid) = _
    by_cases hv : isValidUUID tid = true
    · have hstep : stepInvalid st tid = st := by simp [stepInvalid, hv]
      rw [hstep, ih]
      have hpred : (fun x => !(decide (x ∈ rest) && !(isValidUUID x)))
          = (fun x => !(decide (x ∈ tid :: rest) && !(isValidUUID x))) := by
        funext x
        by_cases hx : x = tid
        · subst hx
          simp [hv]
        · simp [List.mem_cons, hx]
      rw [hpred]
    · have hstep : stepInvalid st tid = lremProcessing st tid := by
        simp [stepInvalid, hv]
      rw [hstep, ih, lrem_then_filter]
      have hpred : (fun x => (!(decide (x ∈ rest) && !(isValidUUID x))) && (x != tid))
          = (fun x => !(decide (x ∈ tid :: rest) && !(isValidUUID x))) := by
        funext x
        by_cases hx : x = tid
        · subst hx
          simp [hv]
        · simp [List.mem_cons, hx]
      rw [hpred]

/-- The UUID-validation pass is the identity when every scanned id is
valid. -/
theorem foldInvalid_id (ids : List String) (st : WorkerState)
    (h : ∀ x ∈ ids, isValidUUID x = true) :
    ids.foldl stepInvalid st = st := by
  induction ids generalizing st with
  | nil => rfl
  | cons tid rest ih =>
    show rest.foldl stepInvalid (stepInvalid st tid) = st
    have hstep : stepInvalid st tid = st := by
      simp [stepInvalid, h tid (List.mem_cons_self tid rest)]
    rw [hstep]
    exact ih st (fun x hx => h x (List.mem_cons_of_mem tid hx))

/-- A sequence of `LREM`s removes exactly the listed ids. -/
theorem foldRemove_characterize (ids : List String) (st : WorkerState) :
    ids.foldl stepRemove st
      = { st with
            processing := st.processing.filter (fun x => !(decide (x ∈ ids))) } := by
  induction ids generalizing st with
  | nil => simp
  | cons tid rest ih =>
    show rest.foldl stepRemove (stepRemove st tid) = _
    rw [show stepRemove st tid = lremProcessing st tid from rfl, ih, lrem_then_filter]
    have hpred : (fun x => (!(decide (x ∈ rest))) && (x != tid))
        = (fun x => !(decide (x ∈ tid :: rest))) := by
      funext x
      by_cases hx : x = tid
      · subst hx
        simp
      · simp [List.mem_cons, hx]
    rw [hpred]

/-- The item loop over ids that all miss their store row performs exactly
the corresponding `LREM`s and reports no error. -/
theorem recover_items_all_none (s : Settings) (now sb : Int)
    (M : String → Option WorkerTask) (ids : List String) (st : WorkerState)
    (h : ∀ t ∈ ids, M t = none) :
    recover_items s now sb M ids st = (ids.foldl stepRemove st, none) := by
  induction ids generalizing st with
  | nil => rfl
  | cons tid rest ih =>
    rw [recover_items, recover_item_collapse,
      h tid (List.mem_cons_self tid rest)]
    exact ih (lremProcessing st tid) (fun x hx => h x (List.mem_cons_of_mem tid hx))

/-- The item loop aborts at the first id whose store row exists, having
`LREM`ed exactly the missing-row ids before it. -/
theorem recover_items_abort (s : Settings) (now sb : Int)
    (M : String → Option WorkerTask) (pre : List String) (t : String)
    (rest : List String) (st : WorkerState)
    (hpre : ∀ x ∈ pre, M x = none) (ht : (M t).isSome = true) :
    recover_items s now sb M (pre ++ t :: rest) st
      = (pre.foldl stepRemove st, some (.attributeError "RETRY_SCHEDULED")) := by
  induction pre generalizing st with
  | nil =>
    obtain ⟨task, htask⟩ := Option.isSome_iff_exists.mp ht
    rw [List.nil_append, recover_items, recover_item_collapse, htask]
    rfl
  | cons p pre' ih =>
    rw [List.cons_append, recover_items, recover_item_collapse,
      hpre p (List.mem_cons_self p pre')]
    exact ih (lremProcessing st p) (fun x hx => hpre x (List.mem_cons_of_mem p hx))

/-- Every id list either has no store row anywhere, or splits at the first
id whose row exists. -/
theorem first_some_split (M : String → Option WorkerTask) (ids : List String) :
    (∀ t ∈ ids, M t = none)
      ∨ ∃ pre t rest, ids = pre ++ t :: rest
          ∧ (∀ x ∈ pre, M x = none) ∧ (M t).isSome = true := by
  induction ids with
  | nil => exact Or.inl (fun t ht => absurd ht (List.not_mem_nil t))
  | cons a l ih =>
    cases hM : M a with
    | some task =>
      refine Or.inr ⟨[], a, l, rfl, fun x hx => absurd hx (List.not_mem_nil x), ?_⟩
      simp [hM]
    | none =>
      rcases ih with hall | ⟨pre, t, rest, hsplit, hpre, ht⟩
      · refine Or.inl ?_
        intro x hx
        rcases List.mem_cons.mp hx with hx | hx
        · subst hx; exact hM
        · exact hall x hx
      · refine Or.inr ⟨a :: pre, t, rest, by rw [hsplit, List.cons_append], ?_, ht⟩
        intro x hx
        rcases List.mem_cons.mp hx with hx | hx
        · subst hx; exact hM
        · exact hpre x hx

/-- C7 as amended: provided the Processing List fits within the recovery
batch window (at most `max(10, WORKER_PROCESSING_RECOVERY_BATCH)` entries),
running the Recover Processing Queue pass twice in succession — no crash,
no new work between the runs — leaves the second run's state identical to
the first run's: no store row, no queue, no attempt counter, no alert and
no notification is changed by the second run. -/
theorem recover_twice_noop (s : Settings) (n1 n2 : Int) (st : WorkerState)
    (h : st.processing.length
        ≤ (max 10 s.WORKER_PROCESSING_RECOVERY_BATCH).toNat) :
    (recover_processing_queue s n2 (recover_processing_queue s n1 st).1).1
      = (recover_processing_queue s n1 st).1 := by
  have htake : st.processing.take (max 10 s.WORKER_PROCESSING_RECOVERY_BATCH).toNat
      = st.processing := List.take_of_length_le h
  have hwin : windowIds s st = st.processing.filter (fun t => pyStrip t != "") := by
    rw [windowIds, htake]
  by_cases hA : (windowIds s st).isEmpty = true
  · have e1 : recover_processing_queue s n1 st = (st, none) := by
      simp only [recover_processing_queue, hA, if_true]
    have e2 : recover_processing_queue s n2 st = (st, none) := by
      simp only [recover_processing_queue, hA, if_true]
    rw [e1]
    show (recover_processing_queue s n2 st).1 = st
    rw [e2]
  · have hA' : (windowIds s st).isEmpty = false := Bool.eq_false_iff.mpr hA
    by_cases hB : ((windowIds s st).filter (fun tid => isValidUUID tid)).isEmpty = true
    · -- every scanned id fails UUID parsing: the pass only drops them
      have e1 : recover_processing_queue s n1 st
          = ((windowIds s st).foldl stepInvalid st, none) := by
        simp only [recover_processing_queue, hA', Bool.false_eq_true, if_false, hB,
          if_true]
      have hnoval : ∀ y ∈ windowIds s st, ¬(isValidUUID y = true) :=
        List.filter_eq_nil_iff.mp (List.isEmpty_iff.mp hB)
      have hlen1 : ((windowIds s st).foldl stepInvalid st).processing.length
          ≤ (max 10 s.WORKER_PROCESSING_RECOVERY_BATCH).toNat := by
        rw [foldInvalid_characterize]
        exact le_trans (List.length_filter_le _ _) h
      have htake1 : ((windowIds s st).foldl stepInvalid st).processing.take
            (max 10 s.WORKER_PROCESSING_RECOVERY_BATCH).toNat
          = ((windowIds s st).foldl stepInvalid st).processing :=
        List.take_of_length_le hlen1
      have hempty : (((windowIds s st).foldl stepInvalid st).processing.filter
          (fun t => pyStrip t != "")).isEmpty = true := by
        rw [foldInvalid_characterize]
        show ((st.processing.filter _).filter _).isEmpty = true
        rw [List.filter_filter, List.isEmpty_iff, List.filter_eq_nil_iff]
        intro x hx hcontra
        rw [Bool.and_eq_true] at hcontra
        obtain ⟨hnbx, hbig⟩ := hcontra
        have hxids : x ∈ windowIds s st := by
          rw [hwin]
          exact List.mem_filter.mpr ⟨hx, hnbx⟩
        have hxval : isValidUUID x = false :=
          Bool.eq_false_iff.mpr (hnoval x hxids)
        rw [decide_eq_true hxids, hxval] at hbig
        simp at hbig
      have hg : (windowIds s ((windowIds s st).foldl stepInvalid st)).isEmpty = true := by
        rw [windowIds, htake1]
        exact hempty
      have e2 : recover_processing_queue s n2 ((windowIds s st).foldl stepInvalid st)
          = ((windowIds s st).foldl stepInvalid st, none) := by
        simp only [recover_processing_queue, hg, if_true]
      rw [e1]
      show (recover_processing_queue s n2 ((windowIds s st).foldl stepInvalid st)).1
          = (windowIds s st).foldl stepInvalid st
      rw [e2]
    · have hB' : ((windowIds s st).filter (fun tid => isValidUUID tid)).isEmpty
          = false := Bool.eq_false_iff.mpr hB
      have e1 : recover_processing_queue s n1 st
          = recover_items s n1 (n1 - max 10 s.WORKER_RUNNING_LEASE_SECONDS)
              (taskMapOf ((windowIds s st).filter (fun tid => isValidUUID tid))
                ((windowIds s st).foldl stepInvalid st))
              (windowIds s st) ((windowIds s st).foldl stepInvalid st) := by
        simp only [recover_processing_queue, hA', hB', Bool.false_eq_true, if_false]
      rcases first_some_split
          (taskMapOf ((windowIds s st).filter (fun tid => isValidUUID tid))
            ((windowIds s st).foldl stepInvalid st))
          (windowIds s st) with hall | ⟨pre, t, rest, hsplit, hpre, ht⟩
      · -- no scanned id has a store row: the loop drops them all
        have e1' : recover_processing_queue s n1 st
            = ((windowIds s st).foldl stepRemove
                ((windowIds s st).foldl stepInvalid st), none) := by
          rw [e1, recover_items_all_none _ _ _ _ _ _ hall]
        have hchar : (windowIds s st).foldl stepRemove
              ((windowIds s st).foldl stepInvalid st)
            = { st with
                  processing := (st.processing.filter
                      (fun x => !(decide (x ∈ windowIds s st) && !(isValidUUID x)))).filter
                    (fun x => !(decide (x ∈ windowIds s st))) } := by
          rw [foldInvalid_characterize, foldRemove_characterize]
        have hlen1 : ((windowIds s st).foldl stepRemove
              ((windowIds s st).foldl stepInvalid st)).processing.length
            ≤ (max 10 s.WORKER_PROCESSING_RECOVERY_BATCH).toNat := by
          rw [hchar]
          exact le_trans (List.length_filter_le _ _)
            (le_trans (List.length_filter_le _ _) h)
        have htake1 := List.take_of_length_le hlen1
        have hempty : (((windowIds s st).foldl stepRemove
              ((windowIds s st).foldl stepInvalid st)).processing.filter
            (fun t => pyStrip t != "")).isEmpty = true := by
          rw [hchar]
          show (((st.processing.filter _).filter _).filter _).isEmpty = true
          rw [List.filter_filter, List.filter_filter, List.isEmpty_iff,
            List.filter_eq_nil_iff]
          intro x hx hcontra
          rw [Bool.and_eq_true, Bool.and_eq_true] at hcontra
          obtain ⟨⟨hnbx, hmask⟩, _⟩ := hcontra
          have hxids : x ∈ windowIds s st := by
            rw [hwin]
            exact List.mem_filter.mpr ⟨hx, hnbx⟩
          rw [decide_eq_true hxids] at hmask
          simp at hmask
        have hg : (windowIds s ((windowIds s st).foldl stepRemove
            ((windowIds s st).foldl stepInvalid st))).isEmpty = true := by
          rw [windowIds, htake1]
          exact hempty
        have e2 : recover_processing_queue s n2 ((windowIds s st).foldl stepRemove
              ((windowIds s st).foldl stepInvalid st))
            = ((windowIds s st).foldl stepRemove
                ((windowIds s st).foldl stepInvalid st), none) := by
          simp only [recover_processing_queue, hg, if_true]
        rw [e1']
        show (recover_processing_queue s n2 ((windowIds s st).foldl stepRemove
            ((windowIds s st).foldl stepInvalid st))).1
          = (windowIds s st).foldl stepRemove ((windowIds s st).foldl stepInvalid st)
        rw [e2]
      · -- the loop aborts at the first id with a row; the second run aborts
        -- at the same id having removed nothing
        have e1' : recover_processing_queue s n1 st
            = (pre.foldl stepRemove ((windowIds s st).foldl stepInvalid st),
                some (.attributeError "RETRY_SCHEDULED")) := by
          have habort := recover_items_abort s n1
            (n1 - max 10 s.WORKER_RUNNING_LEASE_SECONDS)
            (taskMapOf ((windowIds s st).filter (fun tid => isValidUUID tid))
              ((windowIds s st).foldl stepInvalid st))
            pre t rest ((windowIds s st).foldl stepInvalid st) hpre ht
          rw [← hsplit] at habort
          rw [e1, habort]
        have hchar : pre.foldl stepRemove ((windowIds s st).foldl stepInvalid st)
            = { st with
                  processing := (st.processing.filter
                      (fun x => !(decide (x ∈ windowIds s st) && !(isValidUUID x)))).filter
                    (fun x => !(decide (x ∈ pre))) } := by
          rw [foldInvalid_characterize, foldRemove_characterize]
        -- facts about the aborting id t
        have hcont : ((windowIds s st).filter (fun tid => isValidUUID tid)).contains t
            = true := by
          by_contra hc
          have hc' : ((windowIds s st).filter (fun tid => isValidUUID tid)).contains t
              = false := Bool.eq_false_iff.mpr hc
          rw [taskMapOf] at ht
          rw [hc'] at ht
          simp at ht
        have htmem : t ∈ (windowIds s st).filter (fun tid => isValidUUID tid) :=
          List.elem_iff.mp hcont
        have hvt : isValidUUID t = true := (List.mem_filter.mp htmem).2
        have hrow : (getRow st t).isSome = true := by
          have hgr : getRow ((windowIds s st).foldl stepInvalid st) t = getRow st t := by
            rw [foldInvalid_characterize]
            rfl
          rw [taskMapOf, hcont] at ht
          simp only [if_true, hgr] at ht
          exact ht
        have htpre : ¬(t ∈ pre) := by
          intro hmem
          rw [hpre t hmem] at ht
          simp at ht
        have htids : t ∈ windowIds s st := by
          rw [hsplit]
          exact List.mem_append_right pre (List.mem_cons_self t rest)
        -- the second run's window
        have hlen2 : (pre.foldl stepRemove
              ((windowIds s st).foldl stepInvalid st)).processing.length
            ≤ (max 10 s.WORKER_PROCESSING_RECOVERY_BATCH).toNat := by
          rw [hchar]
          exact le_trans (List.length_filter_le _ _)
            (le_trans (List.length_filter_le _ _) h)
        have htake2 := List.take_of_length_le hlen2
        have hids2 : ((pre.foldl stepRemove
              ((windowIds s st).foldl stepInvalid st)).processing.filter
            (fun t => pyStrip t != ""))
            = t :: rest.filter (fun x =>
                ((!(decide (x ∈ pre)))
                  && (!(decide (x ∈ windowIds s st) && !(isValidUUID x))))
                && (pyStrip x != "")) := by
          rw [hchar]
          show ((st.processing.filter _).filter _).filter _ = _
          rw [List.filter_filter, List.filter_filter]
          have hflip : st.processing.filter (fun a =>
                ((pyStrip a != "") && (!(decide (a ∈ pre))))
                  && (!(decide (a ∈ windowIds s st) && !(isValidUUID a))))
              = (st.processing.filter (fun t => pyStrip t != "")).filter (fun x =>
                  ((!(decide (x ∈ pre)))
                    && (!(decide (x ∈ windowIds s st) && !(isValidUUID x))))
                  && (pyStrip x != "")) := by
            rw [List.filter_filter]
            apply List.filter_congr
            intro x _
            cases pyStrip x != "" <;> cases decide (x ∈ pre)
              <;> cases (decide (x ∈ windowIds s st) && !(isValidUUID x)) <;> rfl
          rw [hflip, ← hwin, hsplit]
          have hgen : ∀ (g : String → Bool), g t = true → (∀ x ∈ pre, g x = false) →
              (pre ++ t :: rest).filter g = t :: rest.filter g := by
            intro g hgt hgpre
            rw [List.filter_append]
            have hnil : pre.filter g = [] :=
              List.filter_eq_nil_iff.mpr (fun a ha => by simp [hgpre a ha])
            rw [hnil, List.nil_append, List.filter_cons, hgt]
            rfl
          apply hgen
          · have h1 : decide (t ∈ pre) = false := decide_eq_false htpre
            have h2 : decide (t ∈ pre ++ t :: rest) = true :=
              decide_eq_true (List.mem_append_right pre (List.mem_cons_self t rest))
            have h3 : (pyStrip t != "") = true := by
              have hmem : t ∈ st.processing.filter (fun u => pyStrip u != "") := by
                rw [← hwin]; exact htids
              exact (List.mem_filter.mp hmem).2
            rw [h1, h2, hvt, h3]
            rfl
          · intro x hx
            rw [decide_eq_true hx]
            rfl
        have hval2 : ∀ x ∈ ((pre.foldl stepRemove
              ((windowIds s st).foldl stepInvalid st)).processing.filter
            (fun t => pyStrip t != "")), isValidUUID x = true := by
          intro x hx
          rw [hids2] at hx
          rcases List.mem_cons.mp hx with hx | hx
          · subst hx; exact hvt
          · have hgx := (List.mem_filter.mp hx).2
            have hxrest := (List.mem_filter.mp hx).1
            rw [Bool.and_eq_true, Bool.and_eq_true] at hgx
            obtain ⟨⟨_, hbig⟩, _⟩ := hgx
            have hxids : x ∈ windowIds s st := by
              rw [hsplit]
              exact List.mem_append_right pre (List.mem_cons_of_mem t hxrest)
            rw [decide_eq_true hxids] at hbig
            cases hv : isValidUUID x
            · rw [hv] at hbig
              simp at hbig
            · rfl
        have hwin2 : windowIds s (pre.foldl stepRemove
              ((windowIds s st).foldl stepInvalid st))
            = (pre.foldl stepRemove
                ((windowIds s st).foldl stepInvalid st)).processing.filter
              (fun t => pyStrip t != "") := by
          rw [windowIds, htake2]
        have hgate1 : (windowIds s (pre.foldl stepRemove
            ((windowIds s st).foldl stepInvalid st))).isEmpty = false := by
          rw [hwin2, hids2]
          rfl
        have hvids2 : (windowIds s (pre.foldl stepRemove
              ((windowIds s st).foldl stepInvalid st))).filter
              (fun tid => isValidUUID tid)
            = windowIds s (pre.foldl stepRemove
                ((windowIds s st).foldl stepInvalid st)) := by
          apply List.filter_eq_self.mpr
          intro x hx
          rw [hwin2] at hx
          exact hval2 x hx
        have hgate2 : ((windowIds s (pre.foldl stepRemove
            ((windowIds s st).foldl stepInvalid st))).filter
            (fun tid => isValidUUID tid)).isEmpty = false := by
          rw [hvids2]
          exact hgate1
        have hfold2 : (windowIds s (pre.foldl stepRemove
              ((windowIds s st).foldl stepInvalid st))).foldl stepInvalid
              (pre.foldl stepRemove ((windowIds s st).foldl stepInvalid st))
            = pre.foldl stepRemove ((windowIds s st).foldl stepInvalid st) := by
          apply foldInvalid_id
          intro x hx
          rw [hwin2] at hx
          exact hval2 x hx
        have e2 : recover_processing_queue s n2 (pre.foldl stepRemove
              ((windowIds s st).foldl stepInvalid st))
            = (pre.foldl stepRemove ((windowIds s st).foldl stepInvalid st),
                some (.attributeError "RETRY_SCHEDULED")) := by
          simp only [recover_processing_queue, hgate1, hgate2, Bool.false_eq_true,
            if_false, hfold2, hvids2]
          rw [hwin2, hids2]
          have h2t : (taskMapOf
              (t :: rest.filter (fun x =>
                ((!(decide (x ∈ pre)))
                  && (!(decide (x ∈ windowIds s st) && !(isValidUUID x))))
                && (pyStrip x != "")))
              (pre.foldl stepRemove ((windowIds s st).foldl stepInvalid st)) t).isSome
              = true := by
            rw [taskMapOf]
            have hcont2 : (t :: rest.filter (fun x =>
                ((!(decide (x ∈ pre)))
                  && (!(decide (x ∈ windowIds s st) && !(isValidUUID x))))
                && (pyStrip x != ""))).contains t = true := by
              simp [List.contains_cons]
            rw [hcont2]
            have hgr2 : getRow (pre.foldl stepRemove
                ((windowIds s st).foldl stepInvalid st)) t = getRow st t := by
              rw [hchar]
              rfl
            simp only [if_true, hgr2]
            exact hrow
          have habort := recover_items_abort s n2
            (n2 - max 10 s.WORKER_RUNNING_LEASE_SECONDS)
            (taskMapOf
              (t :: rest.filter (fun x =>
                ((!(decide (x ∈ pre)))
                  && (!(decide (x ∈ windowIds s st) && !(isValidUUID x))))
                && (pyStrip x != "")))
              (pre.foldl stepRemove ((windowIds s st).foldl stepInvalid st)))
            [] t
            (rest.filter (fun x =>
              ((!(decide (x ∈ pre)))
                && (!(decide (x ∈ windowIds s st) && !(isValidUUID x))))
              && (pyStrip x != "")))
            (pre.foldl stepRemove ((windowIds s st).foldl stepInvalid st))
            (fun x hx => absurd hx (List.not_mem_nil x)) h2t
          rw [List.nil_append] at habort
          rw [habort]
          rfl
        rw [e1']
        show (recover_processing_queue s n2 (pre.foldl stepRemove
            ((windowIds s st).foldl stepInvalid st))).1
          = pre.foldl stepRemove ((windowIds s st).foldl stepInvalid st)
        rw [e2]

/-- Witness for the amended C7: recovering a lone rowless marker removes
it on the first run; the second run changes nothing. -/
theorem recover_twice_noop_witness :
    (recover_processing_queue settingsDefault 0
        (recover_processing_queue settingsDefault 0 stW7).1).1
      = (recover_processing_queue settingsDefault 0 stW7).1 :=
  recover_twice_noop settingsDefault 0 0 stW7 (by decide)

/-- C7 counterexample: with eleven stale rowless markers and an effective
recovery batch of 10, the first pass removes only the scanned ten, so the
second pass — no crash, no new work in between — still removes the
eleventh: the queue contents do change on the second run, refuting the
claim as stated. -/
theorem recover_twice_overflow_cex :
    (recover_processing_queue sCex 0 stCex).1.processing
        = ["00000000-0000-4000-8000-00000000000a"]
      ∧ (recover_processing_queue sCex 0
          (recover_processing_queue sCex 0 stCex).1).1.processing = [] :=
  ⟨rfl, rfl⟩

/-- C4 counterexample: processing a task whose `job_type` has no registered
handler and whose retry budget is not exhausted (`max_retries = 1`,
`attempt_count = 0`) does not reach a terminal state: `_fail_task` takes the
retry branch and raises `AttributeError`, leaving the row `running` —
neither `failed` nor `success`. -/
theorem unknown_handler_not_terminal_cex :
    (process_task envNone settingsDefault 1000 stC4 uuid1).2
        = .error (.attributeError "RETRY_SCHEDULED")
      ∧ ((process_task envNone settingsDefault 1000 stC4 uuid1).1.store.map
          (fun t => (t.id, t.status))) = [(uuid1, "running")]
      ∧ ("running" ≠ STATUS_FAILED ∧ "running" ≠ STATUS_SUCCESS) :=
  ⟨rfl, rfl, by decide⟩

/-- C4 as amended: a task whose `job_type` has no registered handler goes
through the ordinary failure path, not a dedicated no-retry one; it reaches
the terminal `Failed` state on this processing only when its retry budget is
already exhausted (`max_retries ≤ attempt_count`, e.g. `max_retries = 0`),
in which case `completed_at` is set and nothing is inserted into the Retry
Set; with remaining budget the code attempts to schedule a retry instead. -/
theorem unknown_handler_failure_path (env : WorkerEnv) (s : Settings)
    (now : Int) (st : WorkerState) (tid : String) (task : WorkerTask)
    (hvalid : isValidUUID tid = true)
    (hrow : getRow st tid = some task)
    (hjt : workerJobTypeOf task.job_type = none)
    (hbudget : task.max_retries ≤ task.attempt_count) :
    ∃ fin : WorkerTask,
      (process_task env s now st tid).2 = .ok (some fin)
        ∧ fin.status = STATUS_FAILED
        ∧ fin.completed_at = some now
        ∧ fin.next_retry_at = none
        ∧ (process_task env s now st tid).1.retry_zset = st.retry_zset := by
  have hjt2 : workerJobTypeOf
      ({ task with status := STATUS_RUNNING, started_at := some now,
                   next_retry_at := none } : WorkerTask).job_type = none := hjt
  simp only [process_task, process_task_body, hvalid, if_true, hrow, hjt2,
    Option.none_bind, fail_task, pure, Except.pure]
  rw [if_neg (by omega)]
  refine ⟨_, rfl, rfl, rfl, rfl, ?_⟩
  dsimp only
  simp only [lremProcessing_retry_zset, notify_user_retry_zset, emitAlert_retry_zset,
    commitRow_retry_zset]

/-- Witness for the amended C4: the zero-budget unknown-type task ends
`failed` with `completed_at` set and an untouched Retry Set. -/
theorem unknown_handler_failure_path_witness :
    ∃ fin : WorkerTask,
      (process_task envNone settingsDefault 1000 stC4z uuid1).2 = .ok (some fin)
        ∧ fin.status = STATUS_FAILED
        ∧ fin.completed_at = some 1000
        ∧ fin.next_retry_at = none
        ∧ (process_task envNone settingsDefault 1000 stC4z uuid1).1.retry_zset
            = stC4z.retry_zset :=
  unknown_handler_failure_path envNone settingsDefault 1000 stC4z uuid1 taskC4z
    (by decide) rfl rfl (by decide)

/-- C5 (code bug): the boundary branch itself behaves as claimed — the
failure that makes `attempt_count = max_retries + 1` (here 3 = 2 + 1)
commits `failed` with `completed_at` set and emits exactly one alert, the
permanent-failure alert — but the attempt ladder of spec Scenario B cannot
happen: the first failed attempt of the same task (`attempt_count = 0`,
`max_retries = 2`) raises `AttributeError("RETRY_SCHEDULED")` instead of
scheduling a retry, so `attempt_count` is never persisted and the loop
crash path emits additional alerts on every earlier attempt. -/
theorem final_failure_boundary_vs_retry_crash :
    fail_task settingsDefault 1000 stC5 taskC5a "boom"
        = .error (.attributeError "RETRY_SCHEDULED")
      ∧ fail_task settingsDefault 1000 stC5 taskC5b "boom" = .ok (stC5exp, taskC5exp)
      ∧ taskC5exp.status = STATUS_FAILED
      ∧ taskC5exp.attempt_count = taskC5b.max_retries + 1
      ∧ taskC5exp.completed_at = some 1000
      ∧ stC5exp.alerts.length = 1 :=
  ⟨rfl, rfl, rfl, rfl, rfl, rfl⟩

/-- Reading back the key just written. -/
theorem getQueue_setQueue_same (store : ResultStore) (k : String) (q : ResultQueue) :
    getQueue (setQueue store k q) k = q := by
  simp [getQueue, setQueue, List.find?]

/-- `find?` by key ignores a filter that removes a different key. -/
theorem find?_filter_ne_key (store : ResultStore) (k k' : String) (h : k' ≠ k) :
    (store.filter (fun kv => kv.1 != k)).find? (fun kv => kv.1 == k')
      = store.find? (fun kv => kv.1 == k') := by
  induction store with
  | nil => rfl
  | cons a rest ih =>
    by_cases h1 : a.1 = k
    · have hp : ¬((a.1 != k) = true) := by simp [h1]
      have hq : ¬((a.1 == k') = true) := by simp [h1, Ne.symm h]
      rw [List.filter_cons, if_neg hp, ih,
        @List.find?_cons_of_neg _ (fun kv => kv.1 == k') a rest hq]
    · have hp : (a.1 != k) = true := by simp [h1]
      rw [List.filter_cons, if_pos hp]
      by_cases h2 : a.1 = k'
      · have hq : (a.1 == k') = true := by simp [h2]
        rw [@List.find?_cons_of_pos _ (fun kv => kv.1 == k') a
            (rest.filter (fun kv => kv.1 != k)) hq,
          @List.find?_cons_of_pos _ (fun kv => kv.1 == k') a rest hq]
      · have hq : ¬((a.1 == k') = true) := by simp [h2]
        rw [@List.find?_cons_of_neg _ (fun kv => kv.1 == k') a
            (rest.filter (fun kv => kv.1 != k)) hq,
          @List.find?_cons_of_neg _ (fun kv => kv.1 == k') a rest hq, ih]

/-- Writing one key leaves every other key unchanged. -/
theorem getQueue_setQueue_ne (store : ResultStore) (k k' : String)
    (q : ResultQueue) (h : k' ≠ k) :
    getQueue (setQueue store k q) k' = getQueue store k' := by
  have hq : ((k, q).1 == k') = false := by simp [Ne.symm h]
  simp only [getQueue, setQueue, List.find?_cons, hq]
  rw [find?_filter_ne_key store k k' h]

/-- C9: every `push(owner, envelope)` appends the envelope to that owner's
result queue (it becomes the last element); afterwards the queue holds at
most `max(10, WORKER_RESULT_QUEUE_MAX_ITEMS)` entries, what survives is a
suffix of the old queue plus the new envelope (oldest evicted first, and
nothing is evicted while the bound is not exceeded); the key carries the
configured TTL; and no other owner's queue changes. -/
theorem worker_result_push_bounded (s : Settings) (store : ResultStore)
    (uid payload : String) :
    (getQueue (worker_result_push s store uid payload) (resultKey uid)).items.getLast?
        = some payload
      ∧ (getQueue (worker_result_push s store uid payload) (resultKey uid)).items.length
          ≤ (max 10 s.WORKER_RESULT_QUEUE_MAX_ITEMS).toNat
      ∧ List.IsSuffix
          (getQueue (worker_result_push s store uid payload) (resultKey uid)).items
          ((getQueue store (resultKey uid)).items ++ [payload])
      ∧ ((getQueue store (resultKey uid)).items.length + 1
            ≤ (max 10 s.WORKER_RESULT_QUEUE_MAX_ITEMS).toNat →
          (getQueue (worker_result_push s store uid payload) (resultKey uid)).items
            = (getQueue store (resultKey uid)).items ++ [payload])
      ∧ (getQueue (worker_result_push s store uid payload) (resultKey uid)).ttl
          = some (max 60 s.WORKER_RESULT_TTL_SECONDS)
      ∧ ∀ k, k ≠ resultKey uid →
          getQueue (worker_result_push s store uid payload) k = getQueue store k := by
  have hset : getQueue (worker_result_push s store uid payload) (resultKey uid)
      = { items := takeLast (max 10 s.WORKER_RESULT_QUEUE_MAX_ITEMS).toNat
            ((getQueue store (resultKey uid)).items ++ [payload]),
          ttl := some (max 60 s.WORKER_RESULT_TTL_SECONDS) } := by
    simp only [worker_result_push]
    exact getQueue_setQueue_same _ _ _
  have hn : 1 ≤ (max 10 s.WORKER_RESULT_QUEUE_MAX_ITEMS).toNat := by
    have h10 : (10 : Int) ≤ max 10 s.WORKER_RESULT_QUEUE_MAX_ITEMS := le_max_left _ _
    omega
  refine ⟨?_, ?_, ?_, ?_, ?_, ?_⟩
  · rw [hset]
    simp only [takeLast, List.getLast?_drop]
    have hlt : ((getQueue store (resultKey uid)).items ++ [payload]).length
        - (max 10 s.WORKER_RESULT_QUEUE_MAX_ITEMS).toNat
        < ((getQueue store (resultKey uid)).items ++ [payload]).length := by
      simp only [List.length_append, List.length_cons, List.length_nil]
      omega
    rw [if_neg (by omega)]
    exact List.getLast?_concat _
  · rw [hset]
    simp only [takeLast, List.length_drop]
    omega
  · rw [hset]
    exact List.drop_suffix _ _
  · intro hfits
    rw [hset]
    simp only [takeLast]
    have hzero : ((getQueue store (resultKey uid)).items ++ [payload]).length
        - (max 10 s.WORKER_RESULT_QUEUE_MAX_ITEMS).toNat = 0 := by
      simp only [List.length_append, List.length_cons, List.length_nil]
      omega
    rw [hzero, List.drop_zero]
  · rw [hset]
  · intro k hk
    simp only [worker_result_push]
    exact getQueue_setQueue_ne _ _ _ _ hk

/-- Witness for C9: pushing onto a fresh owner queue under the default
settings yields the one-element queue carrying the payload and the default
86400-second TTL. -/
theorem worker_result_push_bounded_witness :
    getQueue (worker_result_push settingsDefault [] "u1" "p1") (resultKey "u1")
        = { items := ["p1"], ttl := some 86400 }
      ∧ getQueue (worker_result_push settingsDefault [] "u1" "p1") (resultKey "u2")
          = {} := by
  constructor
  · have h := worker_result_push_bounded settingsDefault [] "u1" "p1"
    have hitems := h.2.2.2.1 (by decide)
    have httl := h.2.2.2.2.1
    have : getQueue (worker_result_push settingsDefault [] "u1" "p1") (resultKey "u1")
        = { items := (getQueue ([] : ResultStore) (resultKey "u1")).items ++ ["p1"],
            ttl := some (max 60 settingsDefault.WORKER_RESULT_TTL_SECONDS) } := by
      cases hq : getQueue (worker_result_push settingsDefault [] "u1" "p1") (resultKey "u1")
      simp only [hq] at hitems httl
      simp [hitems, httl]
    simpa using this
  · exact (worker_result_push_bounded settingsDefault [] "u1" "p1").2.2.2.2.2
      (resultKey "u2") (by decide)

/-- Replacing an id and then looking it up finds the replacement. -/
theorem find?_replace_self (jobs : List SchedJob) (job : SchedJob) :
    ((jobs.filter (fun j => j.id != job.id)) ++ [job]).find? (fun j => j.id == job.id)
      = some job := by
  induction jobs with
  | nil => simp [List.find?]
  | cons a rest ih =>
    by_cases h1 : a.id = job.id
    · have hp : ¬((a.id != job.id) = true) := by simp [h1]
      rw [List.filter_cons, if_neg hp]
      exact ih
    · have hp : (a.id != job.id) = true := by simp [h1]
      have hq : ¬((a.id == job.id) = true) := by simp [h1]
      rw [List.filter_cons, if_pos hp, List.cons_append,
        @List.find?_cons_of_neg _ (fun j => j.id == job.id) a _ hq]
      exact ih

/-- Replacing an id leaves exactly one entry carrying it. -/
theorem filter_replace_self (jobs : List SchedJob) (job : SchedJob) :
    ((jobs.filter (fun j => j.id != job.id)) ++ [job]).filter (fun j => j.id == job.id)
      = [job] := by
  rw [List.filter_append, List.filter_filter]
  have h1 : jobs.filter (fun a => (a.id == job.id) && (a.id != job.id)) = [] := by
    rw [List.filter_eq_nil_iff]
    intro a _
    simp [bne]
  rw [h1]
  simp [List.filter]

/-- C8: `add_or_replace_job` parses `@once:` plus an ISO-8601 timestamp into
a one-shot date trigger; a standard 5/6-field cron expression into a
recurring cron trigger; on success exactly one registry entry carries the
id (any previously registered trigger with that id is replaced); and a
malformed expression — bad timestamp or wrong field count — is surfaced
synchronously as the raised error, leaving the registry unchanged. -/
theorem add_or_replace_job_spec (st : SchedState)
    (job_id expr user_id action_type : String) (payload : Payload) :
    (strStartsWith expr "@once:" = true → isIso8601 (strDrop expr 6) = true →
        (add_or_replace_job st job_id expr user_id action_type payload).2 = .ok ()
          ∧ jobLookup (add_or_replace_job st job_id expr user_id action_type payload).1
              job_id = some (Trigger.date (strDrop expr 6)))
      ∧ (strStartsWith expr "@once:" = false →
          ((splitFields expr).length = 5 ∨ (splitFields expr).length = 6) →
          (add_or_replace_job st job_id expr user_id action_type payload).2 = .ok ()
            ∧ jobLookup (add_or_replace_job st job_id expr user_id action_type payload).1
                job_id = some (Trigger.cron (splitFields expr)))
      ∧ ((add_or_replace_job st job_id expr user_id action_type payload).2 = .ok () →
          countJobs (add_or_replace_job st job_id expr user_id action_type payload).1
            job_id = 1)
      ∧ (∀ e, (add_or_replace_job st job_id expr user_id action_type payload).2 = .error e →
          (add_or_replace_job st job_id expr user_id action_type payload).1.jobs = st.jobs)
      ∧ (strStartsWith expr "@once:" = true → isIso8601 (strDrop expr 6) = false →
          (add_or_replace_job st job_id expr user_id action_type payload).2
            = .error (.valueError ("Invalid isoformat string: " ++ strDrop expr 6)))
      ∧ (strStartsWith expr "@once:" = false →
          ¬((splitFields expr).length = 5 ∨ (splitFields expr).length = 6) →
          (add_or_replace_job st job_id expr user_id action_type payload).2
            = .error (.valueError ("Wrong number of fields; got " ++ expr))) := by
  refine ⟨?_, ?_, ?_, ?_, ?_, ?_⟩
  · intro h1 h2
    simp only [add_or_replace_job, h1, if_true, fromisoformat, h2, Except.map]
    refine ⟨trivial, ?_⟩
    simp only [jobLookup]
    have hfind := find?_replace_self st.jobs
      ⟨job_id, Trigger.date (strDrop expr 6), user_id, action_type, payload⟩
    dsimp only at hfind
    simp [hfind]
  · intro h1 h2
    have hb : ((splitFields expr).length == 5 || (splitFields expr).length == 6) = true := by
      rcases h2 with h | h <;> simp [h]
    simp only [add_or_replace_job, h1, Bool.false_eq_true, if_false, from_crontab, hb,
      if_true, Except.map]
    refine ⟨trivial, ?_⟩
    simp only [jobLookup]
    have hfind := find?_replace_self st.jobs
      ⟨job_id, Trigger.cron (splitFields expr), user_id, action_type, payload⟩
    dsimp only at hfind
    simp [hfind]
  · simp only [add_or_replace_job]
    split
    · intro hok
      exact absurd hok (by simp)
    · rename_i tr htr
      intro _
      simp only [countJobs]
      have hfil := filter_replace_self st.jobs ⟨job_id, tr, user_id, action_type, payload⟩
      dsimp only at hfil
      simp [hfil]
  · simp only [add_or_replace_job]
    split
    · intro e _
      rfl
    · intro e he
      exact absurd he (by simp)
  · intro h1 h2
    simp only [add_or_replace_job, h1, if_true, fromisoformat, h2, Bool.false_eq_true,
      if_false, Except.map]
  · intro h1 h2
    have hb : ((splitFields expr).length == 5 || (splitFields expr).length == 6) = false := by
      push_neg at h2
      simp [h2.1, h2.2]
    simp only [add_or_replace_job, h1, Bool.false_eq_true, if_false, from_crontab, hb,
      Except.map]

/-- Witness for C8: registering a one-shot job on an empty registry
succeeds and stores the date trigger under the id. -/
theorem add_or_replace_job_spec_witness :
    (add_or_replace_job {} "abc" "@once:2026-01-02T03:04:05" "u" "send_message"
        []).2 = .ok ()
      ∧ jobLookup (add_or_replace_job {} "abc" "@once:2026-01-02T03:04:05" "u"
          "send_message" []).1 "abc" = some (Trigger.date "2026-01-02T03:04:05") := by
  have h := add_or_replace_job_spec {} "abc" "@once:2026-01-02T03:04:05" "u"
    "send_message" []
  have h1 := h.1 (by decide) (by decide)
  exact ⟨h1.1, h1.2⟩

/-- C10: whatever `_process_task` did — success, an attempted retry
schedule (which raises), permanent failure, a missing or malformed id, or a
handler exception — the `finally` block removes the processed id from the
Processing List, so no id stays leased after the invocation. -/
theorem process_task_clears_processing (env : WorkerEnv) (s : Settings)
    (now : Int) (st : WorkerState) (task_id : String) :
    task_id ∉ (process_task env s now st task_id).1.processing := by
  intro h
  simp [process_task, lremProcessing, List.mem_filter] at h

end Smartai
